import Mathlib

/-!
# Verification of the Cumulus granules-and-files data migration

Shallow embedding of `src/lambdas/data-migration2/src/granulesAndFiles.ts`:
the per-record transactional migrator (`migrateGranuleRecord`,
`migrateFileRecord`, `migrateGranuleAndFilesViaTransaction`), the sequential
record driver, and the query-routing logic of `migrateGranulesAndFiles` /
`queryAndMigrateGranuleDynamoRecords`.

External collaborators (the `@cumulus/db` models, the field-level transcoder,
the error write stream) are embedded abstractly through an `Env` of lookup and
upsert functions, with a standard instantiation `stdEnv` whose upsert semantics
follow the spec's description of the destination store.  Timestamps are `Nat`
(millisecond epoch values); the destination state is explicit and threaded
through every call; a `knex` transaction is embedded as: an `Except` error from
the transaction body discards the candidate state (rollback), success installs
it (commit).
-/

namespace Cumulus

/-- Errors that can surface from the per-record migration, matching the error
classes of `@cumulus/errors` used by the source plus a catch-all for any other
error an external collaborator may raise. -/
inductive MigErr where
  | recordDoesNotExist
  | recordAlreadyMigrated
  | postgresUpdateFailed
  | otherError (msg : String)
deriving DecidableEq, Repr

/-- A granule file as embedded in a DynamoDB granule record (`ApiFile`). -/
structure ApiFile where
  bucket : String
  key : String
  size : Option Nat := none
  checksum : Option String := none
  checksumType : Option String := none
  fileName : Option String := none
  source : Option String := none
  path : Option String := none
deriving DecidableEq, Repr

/-- A source granule record read from DynamoDB
(`AWS.DynamoDB.DocumentClient.AttributeMap`), restricted to the attributes the
migrator reads: `granuleId`, `collectionId`, `execution`, `updatedAt`, `files`.
`files` is optional: the source code defaults it with `dynamoRecord.files ?? []`. -/
structure DynamoGranuleRecord where
  granuleId : String
  collectionId : String
  execution : Option String := none
  updatedAt : Nat
  files : Option (List ApiFile) := none
deriving DecidableEq, Repr

/-- A destination (PostgreSQL) granule row: generated `cumulus_id`, the natural
key `(granule_id, collection_cumulus_id)`, and the `updated_at` timestamp used
for conflict resolution. -/
structure PGGranule where
  cumulus_id : Nat
  granule_id : String
  collection_cumulus_id : Nat
  updated_at : Nat
deriving DecidableEq, Repr

/-- The destination-shaped granule produced by the field-level transcoder
(before a `cumulus_id` is generated). -/
structure PostgresGranule where
  granule_id : String
  collection_cumulus_id : Nat
  updated_at : Nat
deriving DecidableEq, Repr

/-- A destination (PostgreSQL) file row, mirroring the `PostgresFile` shape
built inside `migrateFileRecord`. -/
structure PostgresFile where
  bucket : String
  key : String
  granule_cumulus_id : Nat
  file_size : Option Nat
  checksum_value : Option String
  checksum_type : Option String
  file_name : Option String
  source : Option String
  path : Option String
deriving DecidableEq, Repr

/-- The destination store state visible to the migrator: the granules table,
the files table, the granule/execution join table written by
`upsertGranuleWithExecutionJoinRecord`, and the next generated identifier. -/
structure PGState where
  granules : List PGGranule
  files : List PostgresFile
  executionJoins : List (Nat × Nat)
  nextId : Nat
deriving DecidableEq, Repr

/-- `granulePgModel.get(trx, \x7b granule_id, collection_cumulus_id \x7d)`:
point lookup of a destination granule by its natural key; `none` embeds the
`RecordDoesNotExist` case which the source catches. -/
def granuleGet (s : PGState) (granuleId : String) (collectionCumulusId : Nat) :
    Option PGGranule :=
  s.granules.find? fun g =>
    g.granule_id == granuleId && g.collection_cumulus_id == collectionCumulusId

/-- The external collaborators consumed by the migrator: foreign-key lookups
for collections and executions, and the destination upsert primitives.
`upsertGranule` returns the list of generated identifiers (the source
destructures `const [cumulusId] = await upsertGranuleWithExecutionJoinRecord(...)`)
together with the candidate post-write state; `upsertFile` may fail like any
in-transaction statement. -/
structure Env where
  collections : String → Except MigErr Nat
  executions : Option String → Except MigErr Nat
  upsertGranule : PGState → PostgresGranule → Option Nat → List Nat × PGState
  upsertFile : PGState → PostgresFile → Except MigErr PGState

/-- Modelled from the spec: `translateApiGranuleToPostgresGranule` is the
external field-level transcoder ("pure mapping from one source granule shape to
the destination shape"); per the spec's Newer-wins property the destination
`updated_at` becomes the source record's `updatedAt`.  The collection cumulus
id resolved by the caller is passed explicitly. -/
def translateApiGranuleToPostgresGranule (record : DynamoGranuleRecord)
    (collectionCumulusId : Nat) : PostgresGranule :=
  { granule_id := record.granuleId
    collection_cumulus_id := collectionCumulusId
    updated_at := record.updatedAt }

/-- The `try/catch` around `executionPgModel.getRecordCumulusId`: a
`RecordDoesNotExist` error is absorbed (the granule proceeds with
`executionCumulusId` unset); any other error is rethrown. -/
def lookupExecutionCaught (env : Env) (record : DynamoGranuleRecord) :
    Except MigErr (Option Nat) :=
  match env.executions record.execution with
  | .ok id => .ok (some id)
  | .error .recordDoesNotExist => .ok none
  | .error e => .error e

/-- `existingRecord && existingRecord.updated_at >= new Date(record.updatedAt)`:
true when an existing destination row is at least as new as the source. -/
def isExistingRecordNewer (existing : Option PGGranule) (updatedAt : Nat) : Bool :=
  match existing with
  | some ex => decide (updatedAt ≤ ex.updated_at)
  | none => false

/-- `migrateGranuleRecord(record, trx)`: resolve the collection (propagating
failure), resolve the execution (absorbing not-found), fetch any existing
destination granule, signal `RecordAlreadyMigrated` when the existing row is at
least as new, otherwise transcode and upsert; an upsert that yields no (JS
falsy) generated identifier signals `PostgresUpdateFailed`.  Returns the
granule's cumulus id and the candidate state. -/
def migrateGranuleRecord (env : Env) (record : DynamoGranuleRecord)
    (s : PGState) : Except MigErr (Nat × PGState) :=
  match env.collections record.collectionId with
  | .error e => .error e
  | .ok collectionCumulusId =>
    match lookupExecutionCaught env record with
    | .error e => .error e
    | .ok executionCumulusId =>
      let existingRecord := granuleGet s record.granuleId collectionCumulusId
      if isExistingRecordNewer existingRecord record.updatedAt then
        .error .recordAlreadyMigrated
      else
        let granule := translateApiGranuleToPostgresGranule record collectionCumulusId
        match env.upsertGranule s granule executionCumulusId with
        | (ids, s1) =>
          match ids.head? with
          | none => .error .postgresUpdateFailed
          | some cumulusId =>
            if cumulusId == 0 then .error .postgresUpdateFailed
            else .ok (cumulusId, s1)

/-- Modelled from the spec: `getBucket` of `@cumulus/api/lib/FileUtils`
projects the destination bucket of a file. -/
def getBucket (file : ApiFile) : String := file.bucket

/-- Modelled from the spec: `getKey` of `@cumulus/api/lib/FileUtils` projects
the destination object key of a file. -/
def getKey (file : ApiFile) : String := file.key

/-- `migrateFileRecord(file, granuleCumulusId, trx)`: map the file to the
destination shape and upsert it, referencing the granule's cumulus id. -/
def migrateFileRecord (env : Env) (file : ApiFile) (granuleCumulusId : Nat)
    (s : PGState) : Except MigErr PGState :=
  let bucket := getBucket file
  let key := getKey file
  let updatedRecord : PostgresFile :=
    { bucket
      key
      granule_cumulus_id := granuleCumulusId
      file_size := file.size
      checksum_value := file.checksum
      checksum_type := file.checksumType
      file_name := file.fileName
      source := file.source
      path := file.path }
  env.upsertFile s updatedRecord

/-- The `files.map((file) => migrateFileRecord(file, granuleCumulusId, trx))`
work inside the transaction: every file of the list is upserted against the
same transaction; the first failure fails the whole batch. -/
def migrateFileRecords (env : Env) : List ApiFile → Nat → PGState →
    Except MigErr PGState
  | [], _, s => .ok s
  | file :: rest, granuleCumulusId, s =>
    match migrateFileRecord env file granuleCumulusId s with
    | .error e => .error e
    | .ok s1 => migrateFileRecords env rest granuleCumulusId s1

/-- The body of `knex.transaction(async (trx) => ...)` in
`migrateGranuleAndFilesViaTransaction`: migrate the granule, then every
embedded file, in one transaction.  An `Except.error` result means the
transaction rolled back: no candidate state survives. -/
def granuleAndFilesTransaction (env : Env) (record : DynamoGranuleRecord)
    (s : PGState) : Except MigErr PGState :=
  match migrateGranuleRecord env record s with
  | .error e => .error e
  | .ok (granuleCumulusId, s1) =>
    migrateFileRecords env (record.files.getD []) granuleCumulusId s1

/-- The filter descriptor recorded into `migrationResult.granulesResult.filters`
by `queryAndMigrateGranuleDynamoRecords`. -/
inductive MigrationFilters where
  | byGranuleId (granuleId : String)
  | byCollectionId (collectionId : String)
deriving DecidableEq, Repr

/-- One `MigrationResult` accumulator:
`\x7b total_dynamo_db_records, migrated, skipped, failed \x7d`. -/
structure MigrationResult where
  total_dynamo_db_records : Nat
  migrated : Nat
  skipped : Nat
  failed : Nat
deriving DecidableEq, Repr

/-- `GranulesMigrationResult`: a `MigrationResult` plus the optional `filters`
descriptor recording which targeted query (if any) was used. -/
structure GranulesMigrationResult extends MigrationResult where
  filters : Option MigrationFilters
deriving DecidableEq, Repr

/-- `GranulesAndFilesMigrationResult`: the granule counters and the file
counters, migrated in lockstep per source record but counted independently. -/
structure GranulesAndFilesMigrationResult where
  granulesResult : GranulesMigrationResult
  filesResult : MigrationResult
deriving DecidableEq, Repr

/-- Modelled from the spec: `initialMigrationResult` of
`data-migration2/src/common` starts every counter at zero. -/
def initialMigrationResult : MigrationResult :=
  { total_dynamo_db_records := 0, migrated := 0, skipped := 0, failed := 0 }

/-- `initializeGranulesAndFilesMigrationResult()`: fresh zeroed counters for
granules and files, with no filter recorded. -/
def initializeGranulesAndFilesMigrationResult : GranulesAndFilesMigrationResult :=
  { granulesResult := { toMigrationResult := initialMigrationResult, filters := none }
    filesResult := initialMigrationResult }

/-- Rendering of a `MigErr` as the `$\x7berror\x7d` interpolation of the
source's error-log line. -/
def MigErr.describe : MigErr → String
  | .recordDoesNotExist => "RecordDoesNotExist"
  | .recordAlreadyMigrated => "RecordAlreadyMigrated"
  | .postgresUpdateFailed => "PostgresUpdateFailed"
  | .otherError msg => msg

/-- `JSON.stringify` applied to one `ApiFile`, modelling only that the
rendering determines the file's fields. -/
def ApiFile.stringify (f : ApiFile) : String :=
  "file " ++ f.bucket ++ "/" ++ f.key

/-- `JSON.stringify(dynamoRecord.files)`: `undefined` when the attribute is
absent, otherwise a bracketed rendering of the list. -/
def stringifyFiles : Option (List ApiFile) → String
  | none => "undefined"
  | some fs => "[" ++ String.intercalate "," (fs.map ApiFile.stringify) ++ "]"

/-- The error-log line written for a failed record: the source's
`errorMessage` (naming the granuleId and the serialized file list) followed by
the cause. -/
def granuleErrorLine (record : DynamoGranuleRecord) (e : MigErr) : String :=
  "Could not create granule record and file records in RDS for DynamoDB Granule granuleId: "
    ++ record.granuleId ++ " with files " ++ stringifyFiles record.files
    ++ ", Cause: " ++ e.describe

/-- `migrateGranuleAndFilesViaTransaction`: count the record (and its files)
as seen, run the granule+files transaction, then classify the outcome —
success counts `migrated`, `RecordAlreadyMigrated` counts `skipped`, any other
error counts `failed` and appends an error line to the error write stream
(modelled as a `List String`).  Errors never propagate: the function is total
and always returns the updated result, the destination state (rolled back to
the input state unless the transaction committed) and the error log. -/
def migrateGranuleAndFilesViaTransaction (env : Env)
    (dynamoRecord : DynamoGranuleRecord)
    (result : GranulesAndFilesMigrationResult) (s : PGState)
    (errorLog : List String) :
    GranulesAndFilesMigrationResult × PGState × List String :=
  let files := dynamoRecord.files.getD []
  let granulesResult := result.granulesResult
  let filesResult := result.filesResult
  let granulesResult := { granulesResult with
    total_dynamo_db_records := granulesResult.total_dynamo_db_records + 1 }
  let filesResult := { filesResult with
    total_dynamo_db_records := filesResult.total_dynamo_db_records + files.length }
  match granuleAndFilesTransaction env dynamoRecord s with
  | .ok s1 =>
    (⟨{ granulesResult with migrated := granulesResult.migrated + 1 },
      { filesResult with migrated := filesResult.migrated + files.length }⟩,
     s1, errorLog)
  | .error .recordAlreadyMigrated =>
    (⟨{ granulesResult with skipped := granulesResult.skipped + 1 },
      { filesResult with skipped := filesResult.skipped + files.length }⟩,
     s, errorLog)
  | .error e =>
    (⟨{ granulesResult with failed := granulesResult.failed + 1 },
      { filesResult with failed := filesResult.failed + files.length }⟩,
     s, errorLog ++ [granuleErrorLine dynamoRecord e])

/-- The record loop shared by `queryAndMigrateGranuleDynamoRecords` (the
`peek`/`shift` while-loop) and `migrateGranuleDynamoRecords` (the `pMap`
callback), sequentialised: every source record is fed through
`migrateGranuleAndFilesViaTransaction`, threading the accumulated result,
destination state and error log. -/
def migrateRecordsSequentially (env : Env) :
    List DynamoGranuleRecord → GranulesAndFilesMigrationResult → PGState →
    List String → GranulesAndFilesMigrationResult × PGState × List String
  | [], result, s, errorLog => (result, s, errorLog)
  | record :: rest, result, s, errorLog =>
    match migrateGranuleAndFilesViaTransaction env record result s errorLog with
    | (result1, s1, errorLog1) =>
      migrateRecordsSequentially env rest result1 s1 errorLog1

/-- Modelled from the spec: `upsertGranuleWithExecutionJoinRecord` of
`@cumulus/db` — an upsert on the natural key `(granule_id,
collection_cumulus_id)` that "reports the number of affected rows and the
generated identifier": an existing row keeps its `cumulus_id` and is
overwritten, a new row takes the next generated identifier; when an execution
cumulus id is supplied, a granule/execution join row is recorded. -/
def stdUpsertGranule (s : PGState) (g : PostgresGranule)
    (executionCumulusId : Option Nat) : List Nat × PGState :=
  let addJoins := fun (cid : Nat) (joins : List (Nat × Nat)) =>
    match executionCumulusId with
    | some eid => (cid, eid) :: joins
    | none => joins
  match granuleGet s g.granule_id g.collection_cumulus_id with
  | some ex =>
    let newRow : PGGranule :=
      { cumulus_id := ex.cumulus_id
        granule_id := g.granule_id
        collection_cumulus_id := g.collection_cumulus_id
        updated_at := g.updated_at }
    ([ex.cumulus_id],
     { s with
        granules := newRow :: s.granules.filter (fun r => r.cumulus_id ≠ ex.cumulus_id)
        executionJoins := addJoins ex.cumulus_id s.executionJoins })
  | none =>
    let cid := s.nextId
    let newRow : PGGranule :=
      { cumulus_id := cid
        granule_id := g.granule_id
        collection_cumulus_id := g.collection_cumulus_id
        updated_at := g.updated_at }
    ([cid],
     { s with
        granules := newRow :: s.granules
        executionJoins := addJoins cid s.executionJoins
        nextId := s.nextId + 1 })

/-- Modelled from the spec: `FilePgModel.upsert` of `@cumulus/db` — an upsert
with the "natural key `(bucket, key)` semantics of the destination":
re-migrating the same file replaces the existing row. -/
def stdUpsertFile (s : PGState) (f : PostgresFile) : PGState :=
  { s with
      files := f :: s.files.filter (fun r => r.bucket ≠ f.bucket ∨ r.key ≠ f.key) }

/-- The standard instantiation of the external collaborators: collection and
execution foreign keys resolved through finite lookup functions (a miss is a
`RecordDoesNotExist`), with the spec-modelled upsert primitives. -/
def stdEnv (collections : String → Option Nat)
    (executions : Option String → Option Nat) : Env :=
  { collections := fun collectionId =>
      match collections collectionId with
      | some n => .ok n
      | none => .error .recordDoesNotExist
    executions := fun url =>
      match executions url with
      | some n => .ok n
      | none => .error .recordDoesNotExist
    upsertGranule := stdUpsertGranule
    upsertFile := fun s f => .ok (stdUpsertFile s f) }

/-- The caller-supplied `GranuleMigrationParams` controlling data selection. -/
structure GranuleMigrationParams where
  granuleId : Option String := none
  collectionId : Option String := none
  loggingInterval : Option Nat := none
  writeConcurrency : Option Nat := none
  parallelScanSegments : Option Nat := none
  parallelScanLimit : Option Nat := none
deriving DecidableEq, Repr

/-- The scan/query strategy chosen by the entry point: a targeted query by
exact `granuleId`, a targeted query on the `collectionId-granuleId-index`
secondary index, a table query with no key condition (when a filter parameter
is supplied but JS-falsy), or an N-segment parallel scan. -/
inductive QueryStrategy where
  | granuleIdQuery (granuleId : String)
  | collectionIdQuery (collectionId : String)
  | unfilteredQuery
  | parallelScan (totalSegments : Nat)
deriving DecidableEq, Repr

/-- `granuleMigrationParams.granuleId !== undefined || granuleMigrationParams.collectionId !== undefined`:
the entry point's choice between the query path and the parallel-scan path. -/
def doDynamoQuery (p : GranuleMigrationParams) : Bool :=
  p.granuleId.isSome || p.collectionId.isSome

/-- The `else if (granuleMigrationParams.collectionId)` branch of
`queryAndMigrateGranuleDynamoRecords` (JS truthiness: an empty string is
falsy). -/
def collectionIdBranch (p : GranuleMigrationParams) :
    QueryStrategy × Option MigrationFilters :=
  match p.collectionId with
  | some c =>
    if c == "" then (.unfilteredQuery, none)
    else (.collectionIdQuery c, some (.byCollectionId c))
  | none => (.unfilteredQuery, none)

/-- The filter dispatch of `queryAndMigrateGranuleDynamoRecords`:
`if (granuleMigrationParams.granuleId) ... else if (granuleMigrationParams.collectionId) ...`,
returning the query strategy together with the `filters` descriptor recorded
into the granules result (JS truthiness: an empty string is falsy). -/
def queryStrategyAndFilters (p : GranuleMigrationParams) :
    QueryStrategy × Option MigrationFilters :=
  match p.granuleId with
  | some g =>
    if g == "" then collectionIdBranch p
    else (.granuleIdQuery g, some (.byGranuleId g))
  | none => collectionIdBranch p

/-- The routing of `migrateGranulesAndFiles`: when either filter parameter is
supplied (`!== undefined`) take the query path of
`queryAndMigrateGranuleDynamoRecords`, otherwise run a parallel scan whose
segment count defaults to 20 (`parallelScanSegments ?? 20`). -/
def routeMigration (p : GranuleMigrationParams) :
    QueryStrategy × Option MigrationFilters :=
  if doDynamoQuery p then queryStrategyAndFilters p
  else (.parallelScan (p.parallelScanSegments.getD 20), none)

/-! ## Helper lemmas -/

/-- The number of files carried by a source record (absent `files` counts 0). -/
def fileCount (record : DynamoGranuleRecord) : Nat :=
  (record.files.getD []).length

/-- Under `stdEnv`, the caught execution lookup never fails: it returns
exactly the lookup function's optional result. -/
lemma stdEnv_lookupExecutionCaught (c : String → Option Nat)
    (e : Option String → Option Nat) (record : DynamoGranuleRecord) :
    lookupExecutionCaught (stdEnv c e) record = .ok (e record.execution) := by
  unfold lookupExecutionCaught stdEnv
  rcases h : e record.execution with _ | n <;> simp [h]

/-- Under `stdEnv` every file upsert succeeds, and the file batch only touches
the `files` table: granules, joins and the id counter are untouched. -/
lemma migrateFileRecords_stdEnv (c : String → Option Nat)
    (e : Option String → Option Nat) (fs : List ApiFile) (gid : Nat)
    (s : PGState) :
    ∃ s1, migrateFileRecords (stdEnv c e) fs gid s = .ok s1 ∧
      s1.granules = s.granules ∧ s1.executionJoins = s.executionJoins ∧
      s1.nextId = s.nextId := by
  induction fs generalizing s with
  | nil => exact ⟨s, rfl, rfl, rfl, rfl⟩
  | cons f rest ih =>
    obtain ⟨s1, h1, hg, hj, hn⟩ := ih (stdUpsertFile s _)
    refine ⟨s1, ?_, ?_, ?_, ?_⟩
    · simpa [migrateFileRecords, migrateFileRecord, stdEnv] using h1
    · simpa [stdUpsertFile] using hg
    · simpa [stdUpsertFile] using hj
    · simpa [stdUpsertFile] using hn

/-- Per-record counter bookkeeping of
`migrateGranuleAndFilesViaTransaction`: the totals always grow by one granule
and `fileCount` files, and exactly one outcome bucket grows by the same
amounts on each side. -/
lemma viaTransaction_counters (env : Env) (record : DynamoGranuleRecord)
    (result : GranulesAndFilesMigrationResult) (s : PGState)
    (errorLog : List String) :
    ((migrateGranuleAndFilesViaTransaction env record result s
        errorLog).1.granulesResult.total_dynamo_db_records
      = result.granulesResult.total_dynamo_db_records + 1) ∧
    ((migrateGranuleAndFilesViaTransaction env record result s
        errorLog).1.filesResult.total_dynamo_db_records
      = result.filesResult.total_dynamo_db_records + fileCount record) ∧
    ((migrateGranuleAndFilesViaTransaction env record result s
        errorLog).1.granulesResult.migrated
      + (migrateGranuleAndFilesViaTransaction env record result s
          errorLog).1.granulesResult.skipped
      + (migrateGranuleAndFilesViaTransaction env record result s
          errorLog).1.granulesResult.failed
      = result.granulesResult.migrated + result.granulesResult.skipped
        + result.granulesResult.failed + 1) ∧
    ((migrateGranuleAndFilesViaTransaction env record result s
        errorLog).1.filesResult.migrated
      + (migrateGranuleAndFilesViaTransaction env record result s
          errorLog).1.filesResult.skipped
      + (migrateGranuleAndFilesViaTransaction env record result s
          errorLog).1.filesResult.failed
      = result.filesResult.migrated + result.filesResult.skipped
        + result.filesResult.failed + fileCount record) := by
  unfold migrateGranuleAndFilesViaTransaction fileCount
  rcases h : granuleAndFilesTransaction env record s with e | s1
  · rcases e <;> simp <;> omega
  · simp; omega

/-- Totals and outcome sums over a run of the sequential driver, starting from
an arbitrary accumulated result. -/
lemma migrateRecordsSequentially_sums (env : Env)
    (records : List DynamoGranuleRecord)
    (result : GranulesAndFilesMigrationResult) (s : PGState)
    (errorLog : List String) :
    ((migrateRecordsSequentially env records result s
        errorLog).1.granulesResult.total_dynamo_db_records
      = result.granulesResult.total_dynamo_db_records + records.length) ∧
    ((migrateRecordsSequentially env records result s
        errorLog).1.granulesResult.migrated
      + (migrateRecordsSequentially env records result s
          errorLog).1.granulesResult.skipped
      + (migrateRecordsSequentially env records result s
          errorLog).1.granulesResult.failed
      = result.granulesResult.migrated + result.granulesResult.skipped
        + result.granulesResult.failed + records.length) ∧
    ((migrateRecordsSequentially env records result s
        errorLog).1.filesResult.total_dynamo_db_records
      = result.filesResult.total_dynamo_db_records
        + (records.map fileCount).sum) ∧
    ((migrateRecordsSequentially env records result s
        errorLog).1.filesResult.migrated
      + (migrateRecordsSequentially env records result s
          errorLog).1.filesResult.skipped
      + (migrateRecordsSequentially env records result s
          errorLog).1.filesResult.failed
      = result.filesResult.migrated + result.filesResult.skipped
        + result.filesResult.failed + (records.map fileCount).sum) := by
  induction records generalizing result s errorLog with
  | nil => simp [migrateRecordsSequentially]
  | cons r rest ih =>
    have hstep := viaTransaction_counters env r result s errorLog
    rcases hout : migrateGranuleAndFilesViaTransaction env r result s errorLog
      with ⟨result1, s1, errorLog1⟩
    rw [hout] at hstep
    simp only [Prod.fst] at hstep
    have := ih result1 s1 errorLog1
    simp only [migrateRecordsSequentially, hout]
    simp only [List.length_cons, List.map_cons, List.sum_cons]
    omega

/-- The destination granule row created when a source record is inserted
fresh with generated identifier `id`. -/
def insertedGranuleRow (record : DynamoGranuleRecord) (cid id : Nat) :
    PGGranule :=
  { cumulus_id := id
    granule_id := record.granuleId
    collection_cumulus_id := cid
    updated_at := record.updatedAt }

/-- Under `stdEnv`, a resolvable collection lookup succeeds. -/
lemma stdEnv_collections_ok (c : String → Option Nat)
    (e : Option String → Option Nat) (x : String) (n : Nat)
    (h : c x = some n) : (stdEnv c e).collections x = .ok n := by
  simp [stdEnv, h]

/-- Under `stdEnv`, migrating a record with no existing destination row
inserts a fresh granule row carrying the source's `updatedAt`, at the head of
the granules table, under the next generated identifier. -/
lemma stdEnv_migrateGranuleRecord_insert (c : String → Option Nat)
    (e : Option String → Option Nat) (record : DynamoGranuleRecord)
    (s : PGState) (cid : Nat)
    (hc : c record.collectionId = some cid)
    (hget : granuleGet s record.granuleId cid = none)
    (hnz : s.nextId ≠ 0) :
    migrateGranuleRecord (stdEnv c e) record s = .ok (s.nextId,
      { s with
          granules := insertedGranuleRow record cid s.nextId :: s.granules
          executionJoins :=
            match e record.execution with
            | some eid => (s.nextId, eid) :: s.executionJoins
            | none => s.executionJoins
          nextId := s.nextId + 1 }) := by
  have hcol := stdEnv_collections_ok c e record.collectionId cid hc
  have hexe := stdEnv_lookupExecutionCaught c e record
  simp only [migrateGranuleRecord, hcol, hexe]
  simp only [isExistingRecordNewer, hget]
  simp only [stdEnv, stdUpsertGranule, translateApiGranuleToPostgresGranule,
    hget, insertedGranuleRow]
  simp [hnz]

/-- Under `stdEnv`, a record whose destination row is already at least as new
signals `RecordAlreadyMigrated` out of the transaction. -/
lemma stdEnv_transaction_skip (c : String → Option Nat)
    (e : Option String → Option Nat) (record : DynamoGranuleRecord)
    (s : PGState) (cid : Nat) (row : PGGranule)
    (hc : c record.collectionId = some cid)
    (hrow : granuleGet s record.granuleId cid = some row)
    (hge : record.updatedAt ≤ row.updated_at) :
    migrateGranuleRecord (stdEnv c e) record s
      = .error .recordAlreadyMigrated ∧
    granuleAndFilesTransaction (stdEnv c e) record s
      = .error .recordAlreadyMigrated := by
  have hcol := stdEnv_collections_ok c e record.collectionId cid hc
  have hexe := stdEnv_lookupExecutionCaught c e record
  have hm : migrateGranuleRecord (stdEnv c e) record s
      = .error .recordAlreadyMigrated := by
    simp only [migrateGranuleRecord, hcol, hexe]
    simp [isExistingRecordNewer, hrow, hge]
  exact ⟨hm, by simp [granuleAndFilesTransaction, hm]⟩

/-- Under `stdEnv`, migrating a record whose existing destination row is
strictly older overwrites that row in place (same `cumulus_id`), giving it the
source's `updatedAt`. -/
lemma stdEnv_migrateGranuleRecord_update (c : String → Option Nat)
    (e : Option String → Option Nat) (record : DynamoGranuleRecord)
    (s : PGState) (cid : Nat) (ex : PGGranule)
    (hc : c record.collectionId = some cid)
    (hex : granuleGet s record.granuleId cid = some ex)
    (hlt : ex.updated_at < record.updatedAt)
    (hpos : ex.cumulus_id ≠ 0) :
    migrateGranuleRecord (stdEnv c e) record s = .ok (ex.cumulus_id,
      { s with
          granules := insertedGranuleRow record cid ex.cumulus_id
            :: s.granules.filter (fun r => r.cumulus_id ≠ ex.cumulus_id)
          executionJoins :=
            match e record.execution with
            | some eid => (ex.cumulus_id, eid) :: s.executionJoins
            | none => s.executionJoins }) := by
  have hcol := stdEnv_collections_ok c e record.collectionId cid hc
  have hexe := stdEnv_lookupExecutionCaught c e record
  have hnotnewer : ¬ record.updatedAt ≤ ex.updated_at := by omega
  simp only [migrateGranuleRecord, hcol, hexe]
  simp only [isExistingRecordNewer, hex]
  simp only [stdEnv, stdUpsertGranule, translateApiGranuleToPostgresGranule,
    hex, insertedGranuleRow]
  simp [hnotnewer, hpos]

/-- Looking up a granule in a state whose granules table starts with the row
inserted for this record finds exactly that row. -/
lemma granuleGet_inserted (record : DynamoGranuleRecord) (cid id : Nat)
    (l : List PGGranule) (s : PGState)
    (h : s.granules = insertedGranuleRow record cid id :: l) :
    granuleGet s record.granuleId cid
      = some (insertedGranuleRow record cid id) := by
  simp [granuleGet, h, insertedGranuleRow, List.find?]

/-! ## Concrete fixtures used by witnesses -/

/-- A sample collection foreign-key table: `C1___001` resolves to cumulus id 7. -/
def cSample : String → Option Nat :=
  fun collectionId => if collectionId = "C1___001" then some 7 else none

/-- A sample execution foreign-key table: only `http://x` resolves (to 3). -/
def eSample : Option String → Option Nat :=
  fun url => if url = some "http://x" then some 3 else none

/-- The standard environment over the sample foreign-key tables. -/
def envSample : Env := stdEnv cSample eSample

/-- An empty destination store whose id generator starts at 1. -/
def stateSample : PGState :=
  { granules := [], files := [], executionJoins := [], nextId := 1 }

/-- A sample source granule with two files and a resolvable execution. -/
def recordSample : DynamoGranuleRecord :=
  { granuleId := "G1"
    collectionId := "C1___001"
    execution := some "http://x"
    updatedAt := 100
    files := some [{ bucket := "b1", key := "k1" }, { bucket := "b2", key := "k2" }] }

/-- An environment whose file upsert rejects the object key `bad`, modelling
an in-transaction file write failure. -/
def failingUpsertFileEnv : Env :=
  { stdEnv cSample eSample with
      upsertFile := fun s f =>
        if f.key = "bad" then .error (.otherError "disk full")
        else .ok (stdUpsertFile s f) }

/-- A sample source granule whose second file fails to upsert under
`failingUpsertFileEnv`. -/
def recordWithBadFile : DynamoGranuleRecord :=
  { granuleId := "G2"
    collectionId := "C1___001"
    execution := none
    updatedAt := 100
    files := some [{ bucket := "b1", key := "good" }, { bucket := "b1", key := "bad" }] }

/-! ## Claim theorems -/

/-- C2: the granule upsert and all of its file upserts run inside one
transaction.  The transaction commits exactly when the granule upsert and
every file upsert succeed: an error from the granule upsert or from any file
upsert fails the whole transaction, and a failed transaction leaves the
destination state exactly as it was (rollback), so no partial granule/file
state is ever visible; a committed transaction installs the transaction's
final state. -/
theorem granuleAndFiles_transaction_atomicity
    (env : Env) (record : DynamoGranuleRecord)
    (result : GranulesAndFilesMigrationResult) (s : PGState)
    (errorLog : List String) :
    (∀ e, granuleAndFilesTransaction env record s = .error e →
      (migrateGranuleAndFilesViaTransaction env record result s
        errorLog).2.1 = s) ∧
    (∀ s1, granuleAndFilesTransaction env record s = .ok s1 →
      (migrateGranuleAndFilesViaTransaction env record result s
        errorLog).2.1 = s1) ∧
    (∀ e, migrateGranuleRecord env record s = .error e →
      granuleAndFilesTransaction env record s = .error e) ∧
    (∀ gid s1 e, migrateGranuleRecord env record s = .ok (gid, s1) →
      migrateFileRecords env (record.files.getD []) gid s1 = .error e →
      granuleAndFilesTransaction env record s = .error e) := by
  refine ⟨?_, ?_, ?_, ?_⟩
  · intro e he
    cases e <;> simp [migrateGranuleAndFilesViaTransaction, he]
  · intro s1 h
    simp [migrateGranuleAndFilesViaTransaction, h]
  · intro e he
    simp [granuleAndFilesTransaction, he]
  · intro gid s1 e h1 h2
    simp [granuleAndFilesTransaction, h1, h2]

/-- C2 witness: with a concrete environment whose second file upsert fails,
the destination state after processing the record is unchanged. -/
theorem granuleAndFiles_transaction_atomicity_witness :
    (migrateGranuleAndFilesViaTransaction failingUpsertFileEnv
      recordWithBadFile initializeGranulesAndFilesMigrationResult
      stateSample []).2.1 = stateSample :=
  (granuleAndFiles_transaction_atomicity failingUpsertFileEnv
      recordWithBadFile initializeGranulesAndFilesMigrationResult
      stateSample []).1 (.otherError "disk full") rfl

/-- C3: each processed record produces exactly one of three outcomes.  A
committed transaction counts the granule and its files as migrated; a
`RecordAlreadyMigrated` error counts them as skipped; any other error counts
them as failed and appends the error line (naming the source granuleId and the
serialized file list) to the error write stream.  In every case the function
returns the updated result instead of propagating the error. -/
theorem viaTransaction_outcome_trichotomy
    (env : Env) (record : DynamoGranuleRecord)
    (result : GranulesAndFilesMigrationResult) (s : PGState)
    (errorLog : List String)
    (result1 : GranulesAndFilesMigrationResult) (s1 : PGState)
    (errorLog1 : List String)
    (hout : migrateGranuleAndFilesViaTransaction env record result s errorLog
      = (result1, s1, errorLog1)) :
    result1.granulesResult.total_dynamo_db_records
      = result.granulesResult.total_dynamo_db_records + 1 ∧
    result1.filesResult.total_dynamo_db_records
      = result.filesResult.total_dynamo_db_records + fileCount record ∧
    (∀ s2, granuleAndFilesTransaction env record s = .ok s2 →
      result1.granulesResult.migrated = result.granulesResult.migrated + 1 ∧
      result1.granulesResult.skipped = result.granulesResult.skipped ∧
      result1.granulesResult.failed = result.granulesResult.failed ∧
      result1.filesResult.migrated
        = result.filesResult.migrated + fileCount record ∧
      result1.filesResult.skipped = result.filesResult.skipped ∧
      result1.filesResult.failed = result.filesResult.failed ∧
      errorLog1 = errorLog) ∧
    (granuleAndFilesTransaction env record s = .error .recordAlreadyMigrated →
      result1.granulesResult.skipped = result.granulesResult.skipped + 1 ∧
      result1.granulesResult.migrated = result.granulesResult.migrated ∧
      result1.granulesResult.failed = result.granulesResult.failed ∧
      result1.filesResult.skipped
        = result.filesResult.skipped + fileCount record ∧
      result1.filesResult.migrated = result.filesResult.migrated ∧
      result1.filesResult.failed = result.filesResult.failed ∧
      errorLog1 = errorLog) ∧
    (∀ e, granuleAndFilesTransaction env record s = .error e →
      e ≠ .recordAlreadyMigrated →
      result1.granulesResult.failed = result.granulesResult.failed + 1 ∧
      result1.granulesResult.migrated = result.granulesResult.migrated ∧
      result1.granulesResult.skipped = result.granulesResult.skipped ∧
      result1.filesResult.failed
        = result.filesResult.failed + fileCount record ∧
      result1.filesResult.migrated = result.filesResult.migrated ∧
      result1.filesResult.skipped = result.filesResult.skipped ∧
      errorLog1 = errorLog ++ [granuleErrorLine record e]) := by
  rcases h : granuleAndFilesTransaction env record s with e | s2
  · cases e <;>
      · simp [migrateGranuleAndFilesViaTransaction, h, Prod.ext_iff] at hout
        obtain ⟨h1, h2, h3⟩ := hout
        subst h1 h2 h3
        simp_all [fileCount]
  · simp [migrateGranuleAndFilesViaTransaction, h, Prod.ext_iff] at hout
    obtain ⟨h1, h2, h3⟩ := hout
    subst h1 h2 h3
    simp_all [fileCount]

/-- C3 witness: the sample record commits against the empty destination, so
the migrated counters advance by one granule and two files. -/
theorem viaTransaction_outcome_trichotomy_witness :
    (migrateGranuleAndFilesViaTransaction envSample recordSample
        initializeGranulesAndFilesMigrationResult stateSample
        []).1.granulesResult.total_dynamo_db_records = 1 :=
  (viaTransaction_outcome_trichotomy envSample recordSample
    initializeGranulesAndFilesMigrationResult stateSample []
    (migrateGranuleAndFilesViaTransaction envSample recordSample
      initializeGranulesAndFilesMigrationResult stateSample []).1
    (migrateGranuleAndFilesViaTransaction envSample recordSample
      initializeGranulesAndFilesMigrationResult stateSample []).2.1
    (migrateGranuleAndFilesViaTransaction envSample recordSample
      initializeGranulesAndFilesMigrationResult stateSample []).2.2
    rfl).1

/-- C4: over any run of the sequential driver starting from the fresh result,
the granule counters satisfy `migrated + skipped + failed =
total_dynamo_db_records = number of source records`, and the file counters
satisfy the same equality where each record contributes its file count. -/
theorem run_counter_conservation (env : Env)
    (records : List DynamoGranuleRecord) (s : PGState)
    (errorLog : List String) :
    ((migrateRecordsSequentially env records
        initializeGranulesAndFilesMigrationResult s
        errorLog).1.granulesResult.migrated
      + (migrateRecordsSequentially env records
          initializeGranulesAndFilesMigrationResult s
          errorLog).1.granulesResult.skipped
      + (migrateRecordsSequentially env records
          initializeGranulesAndFilesMigrationResult s
          errorLog).1.granulesResult.failed
      = (migrateRecordsSequentially env records
          initializeGranulesAndFilesMigrationResult s
          errorLog).1.granulesResult.total_dynamo_db_records) ∧
    ((migrateRecordsSequentially env records
        initializeGranulesAndFilesMigrationResult s
        errorLog).1.granulesResult.total_dynamo_db_records
      = records.length) ∧
    ((migrateRecordsSequentially env records
        initializeGranulesAndFilesMigrationResult s
        errorLog).1.filesResult.migrated
      + (migrateRecordsSequentially env records
          initializeGranulesAndFilesMigrationResult s
          errorLog).1.filesResult.skipped
      + (migrateRecordsSequentially env records
          initializeGranulesAndFilesMigrationResult s
          errorLog).1.filesResult.failed
      = (migrateRecordsSequentially env records
          initializeGranulesAndFilesMigrationResult s
          errorLog).1.filesResult.total_dynamo_db_records) ∧
    ((migrateRecordsSequentially env records
        initializeGranulesAndFilesMigrationResult s
        errorLog).1.filesResult.total_dynamo_db_records
      = (records.map fileCount).sum) := by
  have h := migrateRecordsSequentially_sums env records
    initializeGranulesAndFilesMigrationResult s errorLog
  simp only [initializeGranulesAndFilesMigrationResult,
    initialMigrationResult] at h ⊢
  omega

/-- A sample source granule referencing a collection that does not resolve in
the destination. -/
def recordMissingCollection : DynamoGranuleRecord :=
  { granuleId := "G3"
    collectionId := "C-missing"
    execution := none
    updatedAt := 50
    files := some [{ bucket := "b1", key := "k1" }] }

/-- An environment whose granule upsert affects zero rows (returns no
generated identifier). -/
def zeroRowsUpsertEnv : Env :=
  { stdEnv cSample eSample with upsertGranule := fun s _ _ => ([], s) }

/-- A sample source granule whose `files` attribute is absent. -/
def recordNoFiles : DynamoGranuleRecord :=
  { granuleId := "G4"
    collectionId := "C1___001"
    execution := none
    updatedAt := 100
    files := none }

/-- C5: when the record's collection cannot be resolved, the lookup error
propagates out of `migrateGranuleRecord` and aborts that record's transaction;
the record is counted as failed and an error line is written; the destination
state is unchanged; and the error does not abort the overall migration — the
driver still processes the whole remaining list. -/
theorem collection_lookup_failure_fails_single_record
    (env : Env) (record : DynamoGranuleRecord)
    (result : GranulesAndFilesMigrationResult) (s : PGState)
    (errorLog : List String) (rest : List DynamoGranuleRecord)
    (hc : env.collections record.collectionId = .error .recordDoesNotExist) :
    migrateGranuleRecord env record s = .error .recordDoesNotExist ∧
    granuleAndFilesTransaction env record s = .error .recordDoesNotExist ∧
    (migrateGranuleAndFilesViaTransaction env record result s
        errorLog).1.granulesResult.failed = result.granulesResult.failed + 1 ∧
    (migrateGranuleAndFilesViaTransaction env record result s
        errorLog).1.filesResult.failed
      = result.filesResult.failed + fileCount record ∧
    (migrateGranuleAndFilesViaTransaction env record result s errorLog).2.2
      = errorLog ++ [granuleErrorLine record .recordDoesNotExist] ∧
    (migrateGranuleAndFilesViaTransaction env record result s
      errorLog).2.1 = s ∧
    (migrateRecordsSequentially env (record :: rest) result s
        errorLog).1.granulesResult.total_dynamo_db_records
      = result.granulesResult.total_dynamo_db_records + rest.length + 1 := by
  have hm : migrateGranuleRecord env record s = .error .recordDoesNotExist := by
    simp [migrateGranuleRecord, hc]
  have ht : granuleAndFilesTransaction env record s
      = .error .recordDoesNotExist := by
    simp [granuleAndFilesTransaction, hm]
  have hsums := migrateRecordsSequentially_sums env (record :: rest) result s
    errorLog
  refine ⟨hm, ht, ?_, ?_, ?_, ?_, ?_⟩ <;>
    first
      | simp [migrateGranuleAndFilesViaTransaction, ht, fileCount]
      | · simp only [List.length_cons] at hsums
          omega

/-- C5 witness: the sample record referencing the missing collection fails,
is logged, leaves the destination unchanged, and the driver continues. -/
theorem collection_lookup_failure_fails_single_record_witness :
    migrateGranuleRecord envSample recordMissingCollection stateSample
      = .error .recordDoesNotExist :=
  (collection_lookup_failure_fails_single_record envSample
    recordMissingCollection initializeGranulesAndFilesMigrationResult
    stateSample [] [] rfl).1

/-- C8: when the granule upsert returns no generated identifier despite the
record passing conflict detection, `migrateGranuleRecord` signals
`PostgresUpdateFailed`, and the record is counted as failed and logged rather
than migrated, with the destination state unchanged. -/
theorem upsert_zero_rows_signals_postgres_update_failed
    (env : Env) (record : DynamoGranuleRecord) (s : PGState) (cid : Nat)
    (eopt : Option Nat) (s1 : PGState)
    (result : GranulesAndFilesMigrationResult) (errorLog : List String)
    (hc : env.collections record.collectionId = .ok cid)
    (he : lookupExecutionCaught env record = .ok eopt)
    (hconf : isExistingRecordNewer (granuleGet s record.granuleId cid)
      record.updatedAt = false)
    (hup : env.upsertGranule s
      (translateApiGranuleToPostgresGranule record cid) eopt = ([], s1)) :
    migrateGranuleRecord env record s = .error .postgresUpdateFailed ∧
    (migrateGranuleAndFilesViaTransaction env record result s
        errorLog).1.granulesResult.failed = result.granulesResult.failed + 1 ∧
    (migrateGranuleAndFilesViaTransaction env record result s
        errorLog).1.granulesResult.migrated
      = result.granulesResult.migrated ∧
    (migrateGranuleAndFilesViaTransaction env record result s errorLog).2.2
      = errorLog ++ [granuleErrorLine record .postgresUpdateFailed] ∧
    (migrateGranuleAndFilesViaTransaction env record result s
      errorLog).2.1 = s := by
  have hm : migrateGranuleRecord env record s
      = .error .postgresUpdateFailed := by
    simp [migrateGranuleRecord, hc, he, hconf, hup]
  have ht : granuleAndFilesTransaction env record s
      = .error .postgresUpdateFailed := by
    simp [granuleAndFilesTransaction, hm]
  refine ⟨hm, ?_, ?_, ?_, ?_⟩ <;>
    simp [migrateGranuleAndFilesViaTransaction, ht, fileCount]

/-- C8 witness: against the zero-rows upsert environment the sample record
fails with `PostgresUpdateFailed`. -/
theorem upsert_zero_rows_signals_postgres_update_failed_witness :
    migrateGranuleRecord zeroRowsUpsertEnv recordSample stateSample
      = .error .postgresUpdateFailed :=
  (upsert_zero_rows_signals_postgres_update_failed zeroRowsUpsertEnv
    recordSample stateSample 7 (some 3) stateSample
    initializeGranulesAndFilesMigrationResult [] rfl rfl rfl rfl).1

/-- C10: a record whose `files` attribute is absent is treated exactly like a
record with an empty file list: its file counters do not change at all, no
file upsert is attempted, and the granule outcome and destination state match
those of the same record carrying an explicit empty list. -/
theorem absent_files_treated_as_empty
    (env : Env) (record : DynamoGranuleRecord)
    (result : GranulesAndFilesMigrationResult) (s : PGState)
    (errorLog : List String)
    (hf : record.files = none) :
    (migrateGranuleAndFilesViaTransaction env record result s
      errorLog).1.filesResult = result.filesResult ∧
    record.files.getD [] = [] ∧
    (∀ gid, migrateFileRecords env (record.files.getD []) gid s = .ok s) ∧
    (migrateGranuleAndFilesViaTransaction env record result s
        errorLog).1.granulesResult
      = (migrateGranuleAndFilesViaTransaction env
          { record with files := some [] } result s
          errorLog).1.granulesResult ∧
    (migrateGranuleAndFilesViaTransaction env record result s errorLog).2.1
      = (migrateGranuleAndFilesViaTransaction env
          { record with files := some [] } result s errorLog).2.1 := by
  have hmr : migrateGranuleRecord env { record with files := some [] } s
      = migrateGranuleRecord env record s := by
    simp [migrateGranuleRecord, lookupExecutionCaught,
      translateApiGranuleToPostgresGranule]
  have ht : granuleAndFilesTransaction env { record with files := some [] } s
      = granuleAndFilesTransaction env record s := by
    unfold granuleAndFilesTransaction
    rw [hmr, hf]
    simp
  refine ⟨?_, ?_, ?_, ?_, ?_⟩ <;>
    rcases h : granuleAndFilesTransaction env record s with e | s2 <;>
      first
        | (cases e <;>
            simp [migrateGranuleAndFilesViaTransaction, h, ht, hf,
              migrateFileRecords])
        | simp [migrateGranuleAndFilesViaTransaction, h, ht, hf,
            migrateFileRecords]

/-- C10 witness: the sample record without a `files` attribute leaves the file
counters untouched. -/
theorem absent_files_treated_as_empty_witness :
    (migrateGranuleAndFilesViaTransaction envSample recordNoFiles
        initializeGranulesAndFilesMigrationResult stateSample
        []).1.filesResult
      = initializeGranulesAndFilesMigrationResult.filesResult :=
  (absent_files_treated_as_empty envSample recordNoFiles
    initializeGranulesAndFilesMigrationResult stateSample [] rfl).1

/-- C1: conflict detection is newer-wins.  When an existing destination
granule found by `(granuleId, collectionCumulusId)` has `updated_at ≥` the
source's `updatedAt`, `migrateGranuleRecord` signals `RecordAlreadyMigrated`
and the destination is left unchanged; when the existing row is strictly older
or absent, the granule is upserted and the destination row carries the
source's `updatedAt`. -/
theorem newer_wins_conflict_detection (c : String → Option Nat)
    (e : Option String → Option Nat) (record : DynamoGranuleRecord)
    (s : PGState) (cid : Nat) (result : GranulesAndFilesMigrationResult)
    (errorLog : List String)
    (hc : c record.collectionId = some cid)
    (hnz : s.nextId ≠ 0)
    (hpos : ∀ g ∈ s.granules, g.cumulus_id ≠ 0) :
    (∀ ex, granuleGet s record.granuleId cid = some ex →
      record.updatedAt ≤ ex.updated_at →
      migrateGranuleRecord (stdEnv c e) record s
        = .error .recordAlreadyMigrated ∧
      (migrateGranuleAndFilesViaTransaction (stdEnv c e) record result s
        errorLog).2.1 = s) ∧
    ((granuleGet s record.granuleId cid = none ∨
      (∃ ex, granuleGet s record.granuleId cid = some ex ∧
        ex.updated_at < record.updatedAt)) →
      ∃ gid s1, migrateGranuleRecord (stdEnv c e) record s = .ok (gid, s1) ∧
        ∃ g, granuleGet s1 record.granuleId cid = some g ∧
          g.updated_at = record.updatedAt) := by
  constructor
  · intro ex hex hge
    obtain ⟨hm, ht⟩ := stdEnv_transaction_skip c e record s cid ex hc hex hge
    exact ⟨hm, by simp [migrateGranuleAndFilesViaTransaction, ht]⟩
  · rintro (hnone | ⟨ex, hex, hlt⟩)
    · have hins := stdEnv_migrateGranuleRecord_insert c e record s cid hc
        hnone hnz
      refine ⟨s.nextId, _, hins,
        insertedGranuleRow record cid s.nextId, ?_, rfl⟩
      exact granuleGet_inserted record cid s.nextId s.granules _ rfl
    · have hmem : ex ∈ s.granules := by
        have hfind : s.granules.find? (fun g =>
            g.granule_id == record.granuleId
              && g.collection_cumulus_id == cid) = some ex := hex
        exact List.mem_of_find?_eq_some hfind
      have hupd := stdEnv_migrateGranuleRecord_update c e record s cid ex hc
        hex hlt (hpos ex hmem)
      refine ⟨ex.cumulus_id, _, hupd,
        insertedGranuleRow record cid ex.cumulus_id, ?_, rfl⟩
      exact granuleGet_inserted record cid ex.cumulus_id _ _ rfl

/-- C1 witness: migrating the sample record into the empty destination
succeeds and the stored row carries the source's `updatedAt`. -/
theorem newer_wins_conflict_detection_witness :
    ∃ gid s1,
      migrateGranuleRecord (stdEnv cSample eSample) recordSample stateSample
        = .ok (gid, s1) ∧
      ∃ g, granuleGet s1 recordSample.granuleId 7 = some g ∧
        g.updated_at = recordSample.updatedAt :=
  (newer_wins_conflict_detection cSample eSample recordSample stateSample 7
    initializeGranulesAndFilesMigrationResult [] rfl (by decide)
    (by simp [stateSample])).2 (Or.inl rfl)

/-- C7: a source granule whose execution reference is not found in the
destination still migrates, with no granule/execution join written (the
destination execution reference stays unset) and outcome `migrated`; only the
not-found error is absorbed — an execution lookup failing with any other error
aborts the record. -/
theorem execution_not_found_still_migrates (c : String → Option Nat)
    (e : Option String → Option Nat) (record : DynamoGranuleRecord)
    (s : PGState) (cid : Nat) (result : GranulesAndFilesMigrationResult)
    (errorLog : List String)
    (hc : c record.collectionId = some cid)
    (he : e record.execution = none)
    (hget : granuleGet s record.granuleId cid = none)
    (hnz : s.nextId ≠ 0) :
    (∃ gid s1, migrateGranuleRecord (stdEnv c e) record s = .ok (gid, s1) ∧
      s1.executionJoins = s.executionJoins) ∧
    (migrateGranuleAndFilesViaTransaction (stdEnv c e) record result s
        errorLog).1.granulesResult.migrated
      = result.granulesResult.migrated + 1 ∧
    (∀ (env : Env) (msg : String) (cid2 : Nat),
      env.collections record.collectionId = .ok cid2 →
      env.executions record.execution = .error (.otherError msg) →
      migrateGranuleRecord env record s = .error (.otherError msg)) := by
  have hins := stdEnv_migrateGranuleRecord_insert c e record s cid hc hget hnz
  refine ⟨⟨s.nextId, _, hins, by simp [he]⟩, ?_, ?_⟩
  · obtain ⟨s2, hfs, hg, hj, hn⟩ := migrateFileRecords_stdEnv c e
      (record.files.getD []) s.nextId
      { s with
          granules := insertedGranuleRow record cid s.nextId :: s.granules
          executionJoins :=
            match e record.execution with
            | some eid => (s.nextId, eid) :: s.executionJoins
            | none => s.executionJoins
          nextId := s.nextId + 1 }
    have ht : granuleAndFilesTransaction (stdEnv c e) record s = .ok s2 := by
      simp [granuleAndFilesTransaction, hins, hfs]
    simp [migrateGranuleAndFilesViaTransaction, ht]
  · intro env msg cid2 hc2 he2
    have hcaught : lookupExecutionCaught env record
        = .error (.otherError msg) := by
      simp [lookupExecutionCaught, he2]
    simp [migrateGranuleRecord, hc2, hcaught]

/-- C7 witness: the sample record with no resolvable execution migrates into
the empty destination with no execution join written. -/
theorem execution_not_found_still_migrates_witness :
    ∃ gid s1,
      migrateGranuleRecord (stdEnv cSample eSample) recordNoFiles stateSample
        = .ok (gid, s1) ∧
      s1.executionJoins = stateSample.executionJoins :=
  (execution_not_found_still_migrates cSample eSample recordNoFiles
    stateSample 7 initializeGranulesAndFilesMigrationResult [] rfl rfl rfl
    (by decide)).1

/-- C9: migrating the same source record twice against an initially absent
destination row yields `migrated` on the first run and `skipped` on the
second, and the destination state after the second run is the state after the
first. -/
theorem double_migration_idempotent (c : String → Option Nat)
    (e : Option String → Option Nat) (record : DynamoGranuleRecord)
    (s : PGState) (cid : Nat) (result : GranulesAndFilesMigrationResult)
    (errorLog : List String)
    (result1 result2 : GranulesAndFilesMigrationResult) (s1 s2 : PGState)
    (log1 log2 : List String)
    (hc : c record.collectionId = some cid)
    (hget : granuleGet s record.granuleId cid = none)
    (hnz : s.nextId ≠ 0)
    (hrun1 : migrateGranuleAndFilesViaTransaction (stdEnv c e) record result
      s errorLog = (result1, s1, log1))
    (hrun2 : migrateGranuleAndFilesViaTransaction (stdEnv c e) record result1
      s1 log1 = (result2, s2, log2)) :
    result1.granulesResult.migrated = result.granulesResult.migrated + 1 ∧
    result1.granulesResult.skipped = result.granulesResult.skipped ∧
    result2.granulesResult.skipped = result1.granulesResult.skipped + 1 ∧
    result2.granulesResult.migrated = result1.granulesResult.migrated ∧
    s2 = s1 := by
  have hins := stdEnv_migrateGranuleRecord_insert c e record s cid hc hget hnz
  obtain ⟨s1', hfs, hg, hj, hn⟩ := migrateFileRecords_stdEnv c e
    (record.files.getD []) s.nextId
    { s with
        granules := insertedGranuleRow record cid s.nextId :: s.granules
        executionJoins :=
          match e record.execution with
          | some eid => (s.nextId, eid) :: s.executionJoins
          | none => s.executionJoins
        nextId := s.nextId + 1 }
  have ht1 : granuleAndFilesTransaction (stdEnv c e) record s = .ok s1' := by
    simp [granuleAndFilesTransaction, hins, hfs]
  simp only [migrateGranuleAndFilesViaTransaction, ht1, Prod.ext_iff] at hrun1
  obtain ⟨hr1, hs1, hl1⟩ := hrun1
  have hrow : granuleGet s1 record.granuleId cid
      = some (insertedGranuleRow record cid s.nextId) := by
    refine granuleGet_inserted record cid s.nextId s.granules s1 ?_
    rw [← hs1, hg]
  obtain ⟨hm2, ht2⟩ := stdEnv_transaction_skip c e record s1 cid
    (insertedGranuleRow record cid s.nextId) hc hrow
    (by simp [insertedGranuleRow])
  simp only [migrateGranuleAndFilesViaTransaction, ht2, Prod.ext_iff] at hrun2
  obtain ⟨hr2, hs2, hl2⟩ := hrun2
  subst hr1 hr2 hs2
  simp

/-- C9 witness: the sample record against the empty destination migrates once
then skips, with identical destination state. -/
theorem double_migration_idempotent_witness :
    ((migrateGranuleAndFilesViaTransaction (stdEnv cSample eSample)
        recordSample
        (migrateGranuleAndFilesViaTransaction (stdEnv cSample eSample)
          recordSample initializeGranulesAndFilesMigrationResult stateSample
          []).1
        (migrateGranuleAndFilesViaTransaction (stdEnv cSample eSample)
          recordSample initializeGranulesAndFilesMigrationResult stateSample
          []).2.1
        (migrateGranuleAndFilesViaTransaction (stdEnv cSample eSample)
          recordSample initializeGranulesAndFilesMigrationResult stateSample
          []).2.2).2.1
      = (migrateGranuleAndFilesViaTransaction (stdEnv cSample eSample)
          recordSample initializeGranulesAndFilesMigrationResult stateSample
          []).2.1) :=
  (double_migration_idempotent cSample eSample recordSample stateSample 7
    initializeGranulesAndFilesMigrationResult []
    (migrateGranuleAndFilesViaTransaction (stdEnv cSample eSample)
      recordSample initializeGranulesAndFilesMigrationResult stateSample
      []).1
    (migrateGranuleAndFilesViaTransaction (stdEnv cSample eSample)
      recordSample
      (migrateGranuleAndFilesViaTransaction (stdEnv cSample eSample)
        recordSample initializeGranulesAndFilesMigrationResult stateSample
        []).1
      (migrateGranuleAndFilesViaTransaction (stdEnv cSample eSample)
        recordSample initializeGranulesAndFilesMigrationResult stateSample
        []).2.1
      (migrateGranuleAndFilesViaTransaction (stdEnv cSample eSample)
        recordSample initializeGranulesAndFilesMigrationResult stateSample
        []).2.2).1
    (migrateGranuleAndFilesViaTransaction (stdEnv cSample eSample)
      recordSample initializeGranulesAndFilesMigrationResult stateSample
      []).2.1
    (migrateGranuleAndFilesViaTransaction (stdEnv cSample eSample)
      recordSample
      (migrateGranuleAndFilesViaTransaction (stdEnv cSample eSample)
        recordSample initializeGranulesAndFilesMigrationResult stateSample
        []).1
      (migrateGranuleAndFilesViaTransaction (stdEnv cSample eSample)
        recordSample initializeGranulesAndFilesMigrationResult stateSample
        []).2.1
      (migrateGranuleAndFilesViaTransaction (stdEnv cSample eSample)
        recordSample initializeGranulesAndFilesMigrationResult stateSample
        []).2.2).2.1
    (migrateGranuleAndFilesViaTransaction (stdEnv cSample eSample)
      recordSample initializeGranulesAndFilesMigrationResult stateSample
      []).2.2
    (migrateGranuleAndFilesViaTransaction (stdEnv cSample eSample)
      recordSample
      (migrateGranuleAndFilesViaTransaction (stdEnv cSample eSample)
        recordSample initializeGranulesAndFilesMigrationResult stateSample
        []).1
      (migrateGranuleAndFilesViaTransaction (stdEnv cSample eSample)
        recordSample initializeGranulesAndFilesMigrationResult stateSample
        []).2.1
      (migrateGranuleAndFilesViaTransaction (stdEnv cSample eSample)
        recordSample initializeGranulesAndFilesMigrationResult stateSample
        []).2.2).2.2
    rfl rfl (by decide) rfl rfl).2.2.2.2

/-- C6 counterexample: with `granuleId` supplied but empty (and a non-empty
`collectionId` also supplied), the entry point does not perform the targeted
granuleId query the claim requires — JS truthiness sends it to the collection
branch instead. -/
theorem routing_granuleId_precedence_counterexample :
    (({ granuleId := some "", collectionId := some "coll" }
      : GranuleMigrationParams).granuleId).isSome = true ∧
    routeMigration { granuleId := some "", collectionId := some "coll" }
      = (.collectionIdQuery "coll", some (.byCollectionId "coll")) ∧
    QueryStrategy.collectionIdQuery "coll" ≠ QueryStrategy.granuleIdQuery "" := by
  refine ⟨rfl, rfl, by decide⟩

/-- The routing demanded by the amended claim C6, written from the amended
claim's words: a supplied non-empty `granuleId` takes precedence and selects
the exact-granuleId query with the granuleId filter recorded; otherwise a
supplied non-empty `collectionId` selects the collection secondary-index query
with the collectionId filter recorded; when a filter parameter is supplied but
only empty values are, a table query with no key condition runs and no filter
is recorded; only when neither parameter is supplied does the parallel scan
run, with segments defaulting to 20 when unspecified. -/
def claimedAmendedRouting (p : GranuleMigrationParams) :
    QueryStrategy × Option MigrationFilters :=
  match p.granuleId, p.collectionId with
  | some g, none =>
    if g ≠ "" then (.granuleIdQuery g, some (.byGranuleId g))
    else (.unfilteredQuery, none)
  | some g, some c =>
    if g ≠ "" then (.granuleIdQuery g, some (.byGranuleId g))
    else if c ≠ "" then (.collectionIdQuery c, some (.byCollectionId c))
    else (.unfilteredQuery, none)
  | none, some c =>
    if c ≠ "" then (.collectionIdQuery c, some (.byCollectionId c))
    else (.unfilteredQuery, none)
  | none, none => (.parallelScan (p.parallelScanSegments.getD 20), none)

/-- C6 (amended): the entry point's routing, including which filter it records
and the default of 20 scan segments, agrees with the amended precedence rule
on every parameter combination. -/
theorem routing_strategy_amended (p : GranuleMigrationParams) :
    routeMigration p = claimedAmendedRouting p := by
  rcases p with ⟨g, c, li, wc, ps, pl⟩
  rcases g with _ | g <;> rcases c with _ | c
  · simp [routeMigration, doDynamoQuery, queryStrategyAndFilters,
      collectionIdBranch, claimedAmendedRouting]
  · by_cases hc : c = "" <;>
      simp [routeMigration, doDynamoQuery, queryStrategyAndFilters,
        collectionIdBranch, claimedAmendedRouting, hc]
  · by_cases hg : g = "" <;>
      simp [routeMigration, doDynamoQuery, queryStrategyAndFilters,
        collectionIdBranch, claimedAmendedRouting, hg]
  · by_cases hg : g = "" <;> by_cases hc : c = "" <;>
      simp [routeMigration, doDynamoQuery, queryStrategyAndFilters,
        collectionIdBranch, claimedAmendedRouting, hg, hc]

end Cumulus
